import Mathlib

/-!
Shallow embedding of the identity-and-authorization core of the email-alias
service (files under `src/app/api/`).  The datastore is modelled as lists of
records; every endpoint becomes a pure function from a request body and a
database state to a response together with the resulting database state.
External collaborators (email sanitisation, password hashing, the signing
primitive of the token library, the TOTP generator, fresh random codes) are
passed in as function or value parameters, exactly where the source calls out
to them.
-/

namespace AppApi

/-- A JSON response: either an error body with a status code, or a message
body with a status code (mirrors `jsonify(error=...), s` and
`jsonify(msg=...), s` in the source). -/
inductive Resp where
  | err (e : String) (status : Nat)
  | msg (m : String) (status : Nat)
deriving DecidableEq, Repr

/-- Whether a response is success-shaped (a `msg` body, as returned by the
happy path of the activation endpoints) rather than an `error` body. -/
def Resp.isSuccessShaped : Resp → Bool
  | .msg _ _ => true
  | .err _ _ => false

/-- `User` record (fields used by the api views).  `fido_enabled` and
`is_active` are the results of the model methods of the same names
(`app/models.py` is not part of the sources under verification), stored as
flags; `activated`, `disabled`, `delete_on`, `enable_otp`, `otp_secret` are
columns read directly by the views. -/
structure User where
  id : Nat
  email : String
  name : Option String
  activated : Bool
  disabled : Bool
  delete_on : Option Int
  enable_otp : Bool
  otp_secret : String
  fido_enabled : Bool
  is_active : Bool
deriving DecidableEq, Repr

/-- `ApiKey` record: per-device bearer credential. -/
structure ApiKey where
  user_id : Nat
  name : String
  code : String
  times : Nat
  last_used : Option Int
  sudo_mode_at : Option Int
deriving DecidableEq, Repr

/-- `AccountActivation` record: ephemeral activation-code record. -/
structure AccountActivation where
  id : Nat
  user_id : Nat
  code : String
  tries : Int
deriving DecidableEq, Repr

/-- The datastore: lists of persisted records. -/
structure DB where
  users : List User
  api_keys : List ApiKey
  activations : List AccountActivation
deriving DecidableEq, Repr

/-- Modelled from the spec: `ApiKey.create(user_id, name)` (in
`app/models.py`, not under `src/`) creates a key with a fresh high-entropy
code, zeroed usage counters and null elevation state; the fresh code is a
parameter. -/
def ApiKey.create (user_id : Nat) (name code : String) : ApiKey :=
  { user_id := user_id, name := name, code := code,
    times := 0, last_used := none, sudo_mode_at := none }

/-- Python truthiness of an optional JSON string field, as used by
`if not all([...])` checks: absent or empty means falsy. -/
def truthy : Option String → Bool
  | none => false
  | some s => !(s == "")

/-- `User.get_by(email=email) or User.get_by(email=canonical_email)`. -/
def findUser (db : DB) (email canonical : String) : Option User :=
  (db.users.find? (fun u => u.email == email)).orElse
    (fun _ => db.users.find? (fun u => u.email == canonical))

/- ------------------------------------------------------------------ -/
/- src/app/api/base.py                                                 -/
/- ------------------------------------------------------------------ -/

/-- `SUDO_MODE_VALID = 5  # minutes` (src/app/api/base.py line 12). -/
def SUDO_MODE_VALID : Int := 5

/-- `check_sudo` (src/app/api/base.py lines 34-36): the key is present, its
`sudo_mode_at` is non-null, and `sudo_mode_at >= now - 5 minutes`.  Time is
modelled in integer seconds. -/
def check_sudo (api_key : Option ApiKey) (now : Int) : Bool :=
  match api_key with
  | none => false
  | some k =>
    match k.sudo_mode_at with
    | none => false
    | some t => decide (t ≥ now - SUDO_MODE_VALID * 60)

/-- `ApiKey.get_by(code=request.headers.get("Authentication"))`: an absent
header matches no key. -/
def lookupKey (db : DB) (header : Option String) : Option ApiKey :=
  header.bind (fun c => db.api_keys.find? (fun k => k.code == c))

/-- `api_key.update(last_used=arrow.now(), times=api_key.times + 1)` followed
by `Session.commit()`. -/
def recordUsage (db : DB) (code : String) (now : Int) : DB :=
  { db with api_keys := db.api_keys.map (fun k =>
      if k.code == code then { k with last_used := some now, times := k.times + 1 } else k) }

/-- Outcome of `authorize_request`: an early error return, or success binding
`g.user` and `g.api_key` (the latter `none` for session auth).  `crash`
models the attribute error Python would raise if a key's owner row were
missing (impossible under the foreign-key invariant). -/
inductive AuthzResult where
  | err (r : Resp)
  | ok (user : User) (api_key : Option ApiKey)
  | crash
deriving DecidableEq, Repr

/-- The account-status checks at the end of `authorize_request`
(src/app/api/base.py lines 25-31). -/
def statusChecks (u : User) (k : Option ApiKey) : AuthzResult :=
  if u.disabled then .err (.err "Disabled account" 403)
  else if !u.is_active then .err (.err "Account inactive" 401)
  else .ok u k

/-- `authorize_request` (src/app/api/base.py lines 15-31).  `header` is the
`Authentication` header, `session_user` the flask-login `current_user`
(`none` when not authenticated).  Returns the outcome and the committed
database state: when a key matches, its usage telemetry is committed before
the account-status checks run. -/
def authorize_request (db : DB) (header : Option String) (session_user : Option User)
    (now : Int) : AuthzResult × DB :=
  match lookupKey db header with
  | none =>
    match session_user with
    | none => (.err (.err "Wrong API key" 401), db)
    | some u => (statusChecks u none, db)
  | some k =>
    let db1 := recordUsage db k.code now
    let k1 : ApiKey := { k with last_used := some now, times := k.times + 1 }
    match db.users.find? (fun u => u.id == k.user_id) with
    | none => (.crash, db1)
    | some u => (statusChecks u (some k1), db1)

/-- Outcome of the `require_api_sudo` decorator before the wrapped view
runs: an error response, or permission to proceed with the resolved
identity. -/
inductive SudoGate where
  | err (r : Resp)
  | proceed (user : User) (api_key : Option ApiKey)
  | crash
deriving DecidableEq, Repr

/-- `require_api_sudo` (src/app/api/base.py lines 46-52): run
`authorize_request`; on error return it; otherwise the wrapped view runs only
if `check_sudo(g.api_key)` holds, else `(jsonify(error="Sudo required"), 440)`. -/
def require_api_sudo (db : DB) (header : Option String) (session_user : Option User)
    (now : Int) : SudoGate × DB :=
  match authorize_request db header session_user now with
  | (.err r, db1) => (.err r, db1)
  | (.crash, db1) => (.crash, db1)
  | (.ok u k, db1) =>
    if check_sudo k now then (.proceed u k, db1)
    else (.err (.err "Sudo required" 440), db1)

/- ------------------------------------------------------------------ -/
/- src/app/api/views/auth.py : auth_activate, auth_reactivate          -/
/- ------------------------------------------------------------------ -/

/-- Request body of `POST /auth/activate`. -/
structure ActivateBody where
  email : Option String
  code : Option String
deriving DecidableEq, Repr

/-- `AccountActivation.get_by(user_id=user.id)`. -/
def findActivation (db : DB) (uid : Nat) : Option AccountActivation :=
  db.activations.find? (fun a => a.user_id == uid)

/-- `account_activation.tries -= 1; Session.commit()`. -/
def decrementTries (db : DB) (aid : Nat) : DB :=
  { db with activations := db.activations.map (fun a =>
      if a.id == aid then { a with tries := a.tries - 1 } else a) }

/-- `AccountActivation.delete(account_activation.id); Session.commit()`. -/
def deleteActivation (db : DB) (aid : Nat) : DB :=
  { db with activations := db.activations.filter (fun a => !(a.id == aid)) }

/-- `user.activated = True` (committed). -/
def activateUser (db : DB) (uid : Nat) : DB :=
  { db with users := db.users.map (fun u =>
      if u.id == uid then { u with activated := true } else u) }

/-- `auth_activate` (src/app/api/views/auth.py lines 163-228).  `sanitize`
and `canonicalize` stand for `sanitize_email` / `canonicalize_email` from
`app/utils` (external to the files under verification). -/
def auth_activate (sanitize canonicalize : String → String) (db : DB)
    (body : Option ActivateBody) : Resp × DB :=
  match body with
  | none => (.err "Request body cannot be empty" 400, db)
  | some b =>
    if !(truthy b.email && truthy b.code) then (.err "Missing required fields" 400, db)
    else
      let email := sanitize (b.email.getD "")
      let canonical := canonicalize email
      match findUser db email canonical with
      | none => (.err "Wrong email or code" 400, db)
      | some u =>
        if u.activated then (.err "Wrong email or code" 400, db)
        else
          match findActivation db u.id with
          | none => (.err "Wrong email or code" 400, db)
          | some r =>
            if b.code.getD "" ≠ r.code then
              let db1 := decrementTries db r.id
              if r.tries - 1 = 0 then
                (.err "Too many wrong tries" 410, deleteActivation db1 r.id)
              else
                (.err "Wrong email or code" 400, db1)
            else
              (.msg "Account is activated, user can login now" 200,
               deleteActivation (activateUser db u.id) r.id)

/-- Modelled from the spec: the activation retry budget — `AccountActivation`
records start with a fixed budget (spec: "starts at a fixed budget, e.g. 6");
the default value lives in `app/models.py`, which is not under `src/`. -/
def ACTIVATION_TRIES_BUDGET : Int := 6

/-- Request body of `POST /auth/reactivate` (the `email` field; the view
dereferences it unconditionally). -/
structure ReactivateBody where
  email : String
deriving DecidableEq, Repr

/-- `auth_reactivate` (src/app/api/views/auth.py lines 231-272).  `freshCode`
is the freshly generated 6-digit activation code and `freshId` the row id the
datastore assigns to the new record.  Note the source canonicalises the raw
`data.get("email")`, not the sanitised value. -/
def auth_reactivate (sanitize canonicalize : String → String)
    (freshCode : String) (freshId : Nat) (db : DB)
    (body : Option ReactivateBody) : Resp × DB :=
  match body with
  | none => (.err "request body cannot be empty" 400, db)
  | some b =>
    let email := sanitize b.email
    let canonical := canonicalize b.email
    match findUser db email canonical with
    | none => (.err "Something went wrong" 400, db)
    | some u =>
      if u.activated then (.err "Something went wrong" 400, db)
      else
        let db1 :=
          match findActivation db u.id with
          | some r => deleteActivation db r.id
          | none => db
        let db2 := { db1 with activations := db1.activations ++
          [{ id := freshId, user_id := u.id, code := freshCode,
             tries := ACTIVATION_TRIES_BUDGET }] }
        (.msg "User needs to confirm their account" 200, db2)

/- ------------------------------------------------------------------ -/
/- Signed MFA exchange tokens and per-device key issuance              -/
/- ------------------------------------------------------------------ -/

/-- Modelled from the spec: the `itsdangerous` `Signer` token format — a
payload together with a signature over it.  The MFA exchange token "must only
be accepted if its signature validates against the service's signing
secret". -/
structure SignedToken where
  payload : String
  sig : String
deriving DecidableEq, Repr

/-- Modelled from the spec: `Signer(FLASK_SECRET).sign(payload)` — attaches a
signature computed by the (parameterised) MAC from the secret and the
payload. -/
def Signer.sign (mac : String → String → String) (secret payload : String) : SignedToken :=
  { payload := payload, sig := mac secret payload }

/-- Modelled from the spec: `Signer(FLASK_SECRET).unsign(token)` — returns
the payload when the signature validates, fails (`BadSignature`) otherwise. -/
def Signer.unsign (mac : String → String → String) (secret : String)
    (t : SignedToken) : Option String :=
  if t.sig == mac secret t.payload then some t.payload else none

/-- The shared get-or-create step for the per-device `ApiKey`
(`ApiKey.get_by(user_id=..., name=device)`; if absent, `ApiKey.create` and
commit), as it appears verbatim in `auth_payload`
(src/app/api/views/auth.py lines 389-393) and `auth_mfa`
(src/app/api/views/auth_mfa.py lines 70-74). -/
def getOrCreateApiKey (db : DB) (uid : Nat) (device freshCode : String) : ApiKey × DB :=
  match db.api_keys.find? (fun k => k.user_id == uid && k.name == device) with
  | some k => (k, db)
  | none =>
    let k := ApiKey.create uid device freshCode
    (k, { db with api_keys := db.api_keys ++ [k] })

/-- The dictionary returned by `auth_payload`. -/
structure AuthPayloadRet where
  name : String
  email : String
  mfa_enabled : Bool
  mfa_key : Option SignedToken
  api_key : Option String
deriving DecidableEq, Repr

/-- `auth_payload` (src/app/api/views/auth.py lines 380-400): MFA users get a
signed exchange token and no api key; otherwise the per-device key is
resolved get-or-create and its code returned. -/
def auth_payload (mac : String → String → String) (secret freshCode : String)
    (db : DB) (user : User) (device : String) : AuthPayloadRet × DB :=
  if user.enable_otp then
    ({ name := user.name.getD "", email := user.email, mfa_enabled := user.enable_otp,
       mfa_key := some (Signer.sign mac secret (toString user.id)), api_key := none }, db)
  else
    let (k, db1) := getOrCreateApiKey db user.id device freshCode
    ({ name := user.name.getD "", email := user.email, mfa_enabled := user.enable_otp,
       mfa_key := none, api_key := some k.code }, db1)

/- ------------------------------------------------------------------ -/
/- src/app/api/views/auth.py : auth_login                              -/
/- ------------------------------------------------------------------ -/

/-- Request body of `POST /auth/login`. -/
structure LoginBody where
  email : Option String
  password : Option String
  device : Option String
deriving DecidableEq, Repr

/-- Response of `POST /auth/login`: an error, or 200 with the
`auth_payload` dictionary. -/
inductive LoginResp where
  | err (e : String) (status : Nat)
  | ok (p : AuthPayloadRet) (status : Nat)
deriving DecidableEq, Repr

/-- `auth_login` (src/app/api/views/auth.py lines 30-92).  `check_password`
stands for `User.check_password` (the hash comparison lives in
`app/models.py`, outside the files under verification); `sanitize` and
`canonicalize` for the email normalisers from `app/utils`. -/
def auth_login (sanitize canonicalize : String → String)
    (check_password : User → String → Bool)
    (mac : String → String → String) (secret freshCode : String)
    (db : DB) (body : Option LoginBody) : LoginResp × DB :=
  match body with
  | none => (.err "Request body cannot be empty" 400, db)
  | some b =>
    if !(truthy b.email && truthy b.password && truthy b.device) then
      (.err "Missing required fields" 400, db)
    else
      let email := sanitize (b.email.getD "")
      let canonical := canonicalize email
      match findUser db email canonical with
      | none => (.err "Email or password incorrect" 400, db)
      | some u =>
        if !check_password u (b.password.getD "") then
          (.err "Email or password incorrect" 400, db)
        else if u.disabled then (.err "Account disabled" 400, db)
        else if !(u.delete_on == none) then (.err "Account scheduled for deletion" 400, db)
        else if !u.activated then (.err "Account not activated" 403, db)
        else if u.fido_enabled && !u.enable_otp then
          (.err "FIDO authentication is not supported for this application" 403, db)
        else
          let (p, db1) := auth_payload mac secret freshCode db u (b.device.getD "")
          (.ok p 200, db1)

/- ------------------------------------------------------------------ -/
/- src/app/api/views/auth_mfa.py : auth_mfa                            -/
/- ------------------------------------------------------------------ -/

/-- Request body of `POST /auth/mfa`. -/
structure MfaBody where
  mfa_token : Option String
  mfa_key : Option SignedToken
  device : Option String
deriving DecidableEq, Repr

/-- Response of `POST /auth/mfa`: an error, or 200 with the user info and
api key. -/
inductive MfaResp where
  | err (e : String) (status : Nat)
  | ok (name email api_key : String) (status : Nat)
deriving DecidableEq, Repr

/-- Helper for `parseInt?`: value of a digit string, `none` on any non-digit
character. -/
def parseDigitsAux : List Char → Nat → Option Nat
  | [], acc => some acc
  | c :: cs, acc =>
    if c.isDigit then parseDigitsAux cs (acc * 10 + (c.toNat - Char.toNat '0')) else none

/-- Model of the Python `int(...)` conversion applied to the unsigned token
payload (`int(s.unsign(mfa_key))`): an optional minus sign followed by
digits; anything else raises `ValueError`, modelled as `none`. -/
def parseInt? (s : String) : Option Int :=
  match s.toList with
  | [] => none
  | '-' :: cs =>
    match cs with
    | [] => none
    | _ => (parseDigitsAux cs 0).map (fun n => -(n : Int))
  | cs => (parseDigitsAux cs 0).map (fun n => (n : Int))

/-- Modelled from the spec: `pyotp.TOTP(secret).verify(token, valid_window=w)`
— the TOTP code is accepted iff it equals the code generated at some time
step within the symmetric window `[step - w, step + w]`; `totpAt` is the
(parameterised) per-step code generator of the external TOTP library. -/
def totp_verify (totpAt : String → Int → String) (secret token : String)
    (step : Int) (w : Nat) : Bool :=
  (List.range (2 * w + 1)).any (fun i => totpAt secret (step - (w : Int) + i) == token)

/-- `auth_mfa` (src/app/api/views/auth_mfa.py lines 15-81).  The last
component records whether `send_invalid_totp_login_email` was triggered. -/
def auth_mfa (mac : String → String → String) (secret : String)
    (totpAt : String → Int → String) (step : Int) (freshCode : String)
    (db : DB) (body : Option MfaBody) : MfaResp × DB × Bool :=
  match body with
  | none => (.err "Request body cannot be empty" 400, db, false)
  | some b =>
    if !(truthy b.mfa_token && b.mfa_key.isSome && truthy b.device) then
      (.err "Missing required fields" 400, db, false)
    else
      match b.mfa_key with
      | none => (.err "Missing required fields" 400, db, false)
      | some tk =>
        match (Signer.unsign mac secret tk).bind parseInt? with
        | none => (.err "Invalid mfa_key" 400, db, false)
        | some uid =>
          match db.users.find? (fun u => ((u.id : Int) == uid)) with
          | none => (.err "Invalid mfa_key" 400, db, false)
          | some u =>
            if !u.enable_otp then
              (.err "This endpoint should only be used by users who enable MFA" 400, db, false)
            else if !(totp_verify totpAt u.otp_secret (b.mfa_token.getD "") step 2) then
              (.err "Wrong TOTP Token" 400, db, true)
            else
              let (k, db1) := getOrCreateApiKey db u.id (b.device.getD "") freshCode
              (.ok (u.name.getD "") u.email k.code 200, db1, false)

/- ------------------------------------------------------------------ -/
/- src/app/api/views/user_info.py : create_api_key                     -/
/- ------------------------------------------------------------------ -/

/-- Response of `POST /api_key`. -/
inductive CreateKeyResp where
  | err (e : String) (status : Nat)
  | ok (api_key : String) (status : Nat)
deriving DecidableEq, Repr

/-- `create_api_key` (src/app/api/views/user_info.py lines 104-116): always
calls `ApiKey.create(user_id=g.user.id, name=data["device"])` and commits —
no lookup of an existing key for the device. -/
def create_api_key (freshCode : String) (db : DB) (user : User)
    (body : Option (Option String)) : CreateKeyResp × DB :=
  match body with
  | none => (.err "Device name is required" 400, db)
  | some none => (.err "Device name is required" 400, db)
  | some (some device) =>
    let k := ApiKey.create user.id device freshCode
    (.ok k.code 201, { db with api_keys := db.api_keys ++ [k] })

/- ------------------------------------------------------------------ -/
/- Concrete fixtures used by witnesses and counterexamples             -/
/- ------------------------------------------------------------------ -/

/-- A disabled user owning an api key (fixture). -/
def userC3 : User :=
  { id := 1, email := "a@b", name := none, activated := true, disabled := true,
    delete_on := none, enable_otp := false, otp_secret := "",
    fido_enabled := false, is_active := true }

/-- The api key of `userC3` (fixture). -/
def keyC3 : ApiKey :=
  { user_id := 1, name := "d", code := "abc", times := 4,
    last_used := none, sudo_mode_at := none }

/-- Database holding `userC3` and `keyC3` (fixture). -/
def dbC3 : DB := { users := [userC3], api_keys := [keyC3], activations := [] }

/-- A healthy (activated, enabled, active) user with MFA off (fixture). -/
def userOk : User :=
  { id := 1, email := "a@b", name := none, activated := true, disabled := false,
    delete_on := none, enable_otp := false, otp_secret := "",
    fido_enabled := false, is_active := true }

/-- The empty database (fixture). -/
def dbEmpty : DB := { users := [], api_keys := [], activations := [] }

/-- An unactivated user (fixture). -/
def userUnact : User :=
  { id := 2, email := "u@x", name := none, activated := false, disabled := false,
    delete_on := none, enable_otp := false, otp_secret := "",
    fido_enabled := false, is_active := false }

/-- A live activation record for `userUnact` with three tries left
(fixture). -/
def actRec : AccountActivation := { id := 10, user_id := 2, code := "123456", tries := 3 }

/-- Database with `userUnact` and `actRec` (fixture). -/
def dbAct : DB := { users := [userUnact], api_keys := [], activations := [actRec] }

/-- A live activation record for `userUnact` with a single try left
(fixture). -/
def actRecLast : AccountActivation := { id := 10, user_id := 2, code := "123456", tries := 1 }

/-- Database with `userUnact` one wrong submission away from exhaustion
(fixture). -/
def dbActLast : DB := { users := [userUnact], api_keys := [], activations := [actRecLast] }

/-- Database after `userUnact`'s activation record was exhausted and deleted
(fixture). -/
def dbActExhausted : DB := { users := [userUnact], api_keys := [], activations := [] }

/-- Database holding only the activated user `userOk` (fixture). -/
def dbUserOk : DB := { users := [userOk], api_keys := [], activations := [] }

/-- Database state after the first login of `userOk` on device "dev" created
the key with code "fresh1" (fixture). -/
def dbLogin1 : DB :=
  { users := [userOk], api_keys := [ApiKey.create 1 "dev" "fresh1"], activations := [] }

/-- An existing api key of `userOk` for device "dev" (fixture). -/
def keyDev : ApiKey :=
  { user_id := 1, name := "dev", code := "old", times := 0,
    last_used := none, sudo_mode_at := none }

/-- Database where `userOk` already holds `keyDev` (fixture). -/
def dbWithKey : DB := { users := [userOk], api_keys := [keyDev], activations := [] }

/-- A user with MFA enabled (fixture). -/
def userMfa : User :=
  { id := 3, email := "m@x", name := some "Mia", activated := true, disabled := false,
    delete_on := none, enable_otp := true, otp_secret := "topsecret",
    fido_enabled := false, is_active := true }

/-- Database holding the MFA user `userMfa` (fixture). -/
def dbMfa : DB := { users := [userMfa], api_keys := [], activations := [] }

/-- A toy MAC used to instantiate the signing primitive in concrete runs
(fixture). -/
def macFix (secret payload : String) : String := secret ++ "|" ++ payload

/-- A toy TOTP generator used in concrete runs: the code is the secret with
the step number appended (fixture). -/
def totpFix (secret : String) (step : Int) : String := secret ++ toString step

/- ------------------------------------------------------------------ -/
/- Theorems                                                            -/
/- ------------------------------------------------------------------ -/

/-- C2: `check_sudo` returns true iff a bearer credential is present, its
`sudo_mode_at` is non-null, and `now - sudo_mode_at` is at most the 5-minute
elevation window; in particular an elevation stamped at `T` passes at
`T + 4m59s` and fails at `T + 5m01s`. -/
theorem check_sudo_spec :
    (∀ (k? : Option ApiKey) (now : Int),
      check_sudo k? now = true ↔
        ∃ k t, k? = some k ∧ k.sudo_mode_at = some t ∧ now - t ≤ SUDO_MODE_VALID * 60)
    ∧ (∀ (k : ApiKey) (T : Int), k.sudo_mode_at = some T →
        check_sudo (some k) (T + 299) = true ∧ check_sudo (some k) (T + 301) = false) := by
  have hval : SUDO_MODE_VALID * 60 = 300 := rfl
  constructor
  · intro k? now
    cases k? with
    | none => simp [check_sudo]
    | some k =>
      cases hmode : k.sudo_mode_at with
      | none => simp [check_sudo, hmode]
      | some t =>
        simp only [check_sudo, hmode, decide_eq_true_eq]
        constructor
        · intro hge
          exact ⟨k, t, rfl, hmode, by omega⟩
        · rintro ⟨k', t', hk, ht, hle⟩
          cases hk
          rw [hmode] at ht
          cases ht
          omega
  · intro k T hmode
    refine ⟨?_, ?_⟩ <;> simp only [check_sudo, hmode, hval, decide_eq_true_eq, decide_eq_false_iff_not] <;> omega

/-- C2 witness: a key elevated at time 0 passes at 299 s and fails at
301 s. -/
theorem check_sudo_spec_witness :
    check_sudo (some { user_id := 1, name := "d", code := "c", times := 0,
                       last_used := none, sudo_mode_at := some 0 }) (0 + 299) = true
    ∧ check_sudo (some { user_id := 1, name := "d", code := "c", times := 0,
                         last_used := none, sudo_mode_at := some 0 }) (0 + 301) = false :=
  check_sudo_spec.2 _ 0 rfl

/-- C3: when the `Authentication` header matches a stored `ApiKey`, the
database state returned by `authorize_request` is the one with that key's
usage telemetry recorded (counter incremented, last-used set to now) — for
every outcome, so in particular the update is persisted when the request then
fails with 403 "Disabled account" or 401 "Account inactive". -/
theorem authorize_request_records_usage (db : DB) (hdr : String) (k : ApiKey)
    (s : Option User) (now : Int)
    (hk : lookupKey db (some hdr) = some k) :
    (authorize_request db (some hdr) s now).2 = recordUsage db k.code now
    ∧ (∀ u, db.users.find? (fun u => u.id == k.user_id) = some u → u.disabled = true →
        authorize_request db (some hdr) s now
          = (.err (.err "Disabled account" 403), recordUsage db k.code now))
    ∧ (∀ u, db.users.find? (fun u => u.id == k.user_id) = some u →
        u.disabled = false → u.is_active = false →
        authorize_request db (some hdr) s now
          = (.err (.err "Account inactive" 401), recordUsage db k.code now)) := by
  refine ⟨?_, ?_, ?_⟩
  · simp only [authorize_request, hk]
    cases hfind : db.users.find? (fun u => u.id == k.user_id) <;> simp [hfind]
  · intro u hfind hdis
    simp only [authorize_request, hk, hfind, statusChecks, hdis]
    simp
  · intro u hfind hdis hact
    simp only [authorize_request, hk, hfind, statusChecks, hdis, hact]
    simp

/-- C3 witness: a request with a matching key whose owner is disabled gets
403 while the usage update is still in the returned state. -/
theorem authorize_request_records_usage_witness :
    authorize_request dbC3 (some "abc") none 7
      = (.err (.err "Disabled account" 403), recordUsage dbC3 "abc" 7) :=
  (authorize_request_records_usage dbC3 "abc" keyC3 none 7 (by decide)).2.1 userC3
    (by decide) (by decide)

/-- C9: whenever the base gate resolves an identity whose credential lacks a
live elevation, `require_api_sudo` answers with the distinct
`("Sudo required", 440)` response; a session-only request (no bearer match)
always resolves with `g.api_key = none`, and `check_sudo none` never holds,
so such requests can never pass; and the 440 response differs from the
generic 401 and 403 responses of the base gate. -/
theorem require_api_sudo_spec (db : DB) (hdr : Option String) (s : Option User)
    (now : Int) (u : User) (k : Option ApiKey) (db1 : DB)
    (hok : authorize_request db hdr s now = (.ok u k, db1))
    (hns : check_sudo k now = false) :
    require_api_sudo db hdr s now = (.err (.err "Sudo required" 440), db1)
    ∧ (lookupKey db hdr = none → k = none)
    ∧ (∀ t, check_sudo none t = false)
    ∧ (Resp.err "Sudo required" 440 ≠ Resp.err "Wrong API key" 401
       ∧ Resp.err "Sudo required" 440 ≠ Resp.err "Disabled account" 403
       ∧ Resp.err "Sudo required" 440 ≠ Resp.err "Account inactive" 401) := by
  refine ⟨?_, ?_, fun t => rfl, by decide⟩
  · unfold require_api_sudo
    rw [hok]
    simp [hns]
  · intro hnone
    unfold authorize_request at hok
    rw [hnone] at hok
    cases s with
    | none => simp at hok
    | some u' =>
      simp only [statusChecks, Prod.mk.injEq] at hok
      split_ifs at hok <;> simp_all

/-- C9 witness: a session-authenticated request (no bearer credential) to a
sudo-protected operation fails with 440 "Sudo required". -/
theorem require_api_sudo_spec_witness :
    require_api_sudo dbEmpty none (some userOk) 5
      = (.err (.err "Sudo required" 440), dbEmpty) :=
  (require_api_sudo_spec dbEmpty none (some userOk) 5 userOk none dbEmpty (by decide)
    (by decide)).1

/-- C1: for an unactivated user with a live activation record, a
non-matching code decrements `tries`; when the decremented count reaches zero
the record is deleted and the distinct `("Too many wrong tries", 410)`
outcome is returned, otherwise the generic `("Wrong email or code", 400)`
outcome; the matching code deletes the record and sets `activated = true`. -/
theorem auth_activate_spec (sanitize canonicalize : String → String) (db : DB)
    (e c : String) (u : User) (r : AccountActivation)
    (he : e ≠ "") (hc : c ≠ "")
    (hu : findUser db (sanitize e) (canonicalize (sanitize e)) = some u)
    (hact : u.activated = false)
    (hr : findActivation db u.id = some r) :
    (c ≠ r.code → r.tries - 1 ≠ 0 →
      auth_activate sanitize canonicalize db (some { email := some e, code := some c })
        = (.err "Wrong email or code" 400, decrementTries db r.id))
    ∧ (c ≠ r.code → r.tries - 1 = 0 →
      auth_activate sanitize canonicalize db (some { email := some e, code := some c })
        = (.err "Too many wrong tries" 410, deleteActivation (decrementTries db r.id) r.id))
    ∧ (c = r.code →
      auth_activate sanitize canonicalize db (some { email := some e, code := some c })
        = (.msg "Account is activated, user can login now" 200,
           deleteActivation (activateUser db u.id) r.id)) := by
  refine ⟨?_, ?_, ?_⟩
  · intro hne htr
    simp only [auth_activate, truthy, Option.getD_some, hu, hact, hr]
    simp [he, hc, hne, htr]
  · intro hne htr
    simp only [auth_activate, truthy, Option.getD_some, hu, hact, hr]
    simp [he, hc, hne, htr]
  · intro hcc
    subst hcc
    simp only [auth_activate, truthy, Option.getD_some, hu, hact, hr]
    simp [he, hc]

/-- C1 witness: with three tries left, a wrong code yields the generic 400
and a decremented record; the matching code activates the user. -/
theorem auth_activate_spec_witness :
    auth_activate (fun s => s) (fun s => s) dbAct
        (some { email := some "u@x", code := some "000000" })
      = (.err "Wrong email or code" 400, decrementTries dbAct 10)
    ∧ auth_activate (fun s => s) (fun s => s) dbAct
        (some { email := some "u@x", code := some "123456" })
      = (.msg "Account is activated, user can login now" 200,
         deleteActivation (activateUser dbAct 2) 10) :=
  ⟨(auth_activate_spec (fun s => s) (fun s => s) dbAct "u@x" "000000" userUnact actRec
      (by decide) (by decide) (by decide) rfl (by decide)).1 (by decide) (by decide),
   (auth_activate_spec (fun s => s) (fun s => s) dbAct "u@x" "123456" userUnact actRec
      (by decide) (by decide) (by decide) rfl (by decide)).2.2 rfl⟩

/-- C4 counterexample: with one try left, a wrong code exhausts the record
(410); the *correct* code submitted afterwards gets the generic
`("Wrong email or code", 400)` response, not the distinct
`("Too many wrong tries", 410)` one the claim requires. -/
theorem auth_activate_after_exhaust_cex :
    auth_activate (fun s => s) (fun s => s) dbActLast
        (some { email := some "u@x", code := some "000000" })
      = (.err "Too many wrong tries" 410, dbActExhausted)
    ∧ auth_activate (fun s => s) (fun s => s) dbActExhausted
        (some { email := some "u@x", code := some "123456" })
      = (.err "Wrong email or code" 400, dbActExhausted)
    ∧ Resp.err "Wrong email or code" 400 ≠ Resp.err "Too many wrong tries" 410 := by
  refine ⟨by decide, by decide, by decide⟩

/-- C4 amended: once the activation record is exhausted and deleted, a
subsequent submission of the correct code (like any submission for a user
with no live record) fails with the generic `("Wrong email or code", 400)`
outcome, not the distinct `("Too many wrong tries", 410)` outcome. -/
theorem auth_activate_no_record (sanitize canonicalize : String → String) (db : DB)
    (e c : String) (u : User)
    (he : e ≠ "") (hc : c ≠ "")
    (hu : findUser db (sanitize e) (canonicalize (sanitize e)) = some u)
    (hact : u.activated = false)
    (hr : findActivation db u.id = none) :
    auth_activate sanitize canonicalize db (some { email := some e, code := some c })
      = (.err "Wrong email or code" 400, db) := by
  simp only [auth_activate, truthy, Option.getD_some, hu, hact, hr]
  simp [he, hc]

/-- C4 witness: submitting the (formerly correct) code after exhaustion gets
the generic 400. -/
theorem auth_activate_no_record_witness :
    auth_activate (fun s => s) (fun s => s) dbActExhausted
        (some { email := some "u@x", code := some "123456" })
      = (.err "Wrong email or code" 400, dbActExhausted) :=
  auth_activate_no_record (fun s => s) (fun s => s) dbActExhausted "u@x" "123456"
    userUnact (by decide) (by decide) (by decide) rfl (by decide)

/-- C6 counterexample: `POST /auth/reactivate` with an email that matches no
user does not return a success-shaped response — it returns the generic
failure `("Something went wrong", 400)`. -/
theorem auth_reactivate_unknown_email_cex :
    auth_reactivate (fun s => s) (fun s => s) "654321" 11 dbEmpty (some { email := "x@y" })
      = (.err "Something went wrong" 400, dbEmpty)
    ∧ (auth_reactivate (fun s => s) (fun s => s) "654321" 11 dbEmpty
        (some { email := "x@y" })).1.isSuccessShaped = false := by
  refine ⟨by decide, by decide⟩

/-- C6 amended: `auth_reactivate` returns the identical generic failure
`("Something went wrong", 400)` with the state unchanged whether the email
matches no user or matches an already-activated user (so the two are
indistinguishable); only for an existing unactivated user does it delete any
prior record, persist a fresh code, and return the success shape. -/
theorem auth_reactivate_spec (san canon : String → String) (fc : String) (fid : Nat)
    (db : DB) (e : String) :
    (findUser db (san e) (canon e) = none →
      auth_reactivate san canon fc fid db (some { email := e })
        = (.err "Something went wrong" 400, db))
    ∧ (∀ u, findUser db (san e) (canon e) = some u → u.activated = true →
      auth_reactivate san canon fc fid db (some { email := e })
        = (.err "Something went wrong" 400, db))
    ∧ (∀ u, findUser db (san e) (canon e) = some u → u.activated = false →
      findActivation db u.id = none →
      auth_reactivate san canon fc fid db (some { email := e })
        = (.msg "User needs to confirm their account" 200,
           { db with activations := db.activations
               ++ [{ id := fid, user_id := u.id, code := fc,
                     tries := ACTIVATION_TRIES_BUDGET }] }))
    ∧ (∀ u r, findUser db (san e) (canon e) = some u → u.activated = false →
      findActivation db u.id = some r →
      auth_reactivate san canon fc fid db (some { email := e })
        = (.msg "User needs to confirm their account" 200,
           { deleteActivation db r.id with
             activations := (deleteActivation db r.id).activations
               ++ [{ id := fid, user_id := u.id, code := fc,
                     tries := ACTIVATION_TRIES_BUDGET }] })) := by
  refine ⟨?_, ?_, ?_, ?_⟩
  · intro hu
    simp [auth_reactivate, hu]
  · intro u hu hact
    simp [auth_reactivate, hu, hact]
  · intro u hu hact hr
    simp [auth_reactivate, hu, hact, hr]
  · intro u r hu hact hr
    simp [auth_reactivate, hu, hact, hr]

/-- C6 witness: the no-such-user and already-activated cases produce the
identical generic failure. -/
theorem auth_reactivate_spec_witness :
    auth_reactivate (fun s => s) (fun s => s) "654321" 11 dbEmpty (some { email := "x@y" })
      = (.err "Something went wrong" 400, dbEmpty)
    ∧ auth_reactivate (fun s => s) (fun s => s) "654321" 11 dbUserOk (some { email := "a@b" })
      = (.err "Something went wrong" 400, dbUserOk) :=
  ⟨(auth_reactivate_spec (fun s => s) (fun s => s) "654321" 11 dbEmpty "x@y").1 (by decide),
   (auth_reactivate_spec (fun s => s) (fun s => s) "654321" 11 dbUserOk "a@b").2.1 userOk
     (by decide) rfl⟩

/-- C10: the login failure response is byte-identical — the same
`("Email or password incorrect", 400)` with the state untouched — whether the
submitted email matches no user or matches a user whose password check
fails. -/
theorem auth_login_uniform_failure (san canon : String → String)
    (cp : User → String → Bool) (mac : String → String → String)
    (secret fc : String) (db : DB) (e p d : String)
    (he : e ≠ "") (hp : p ≠ "") (hd : d ≠ "")
    (hfail : findUser db (san e) (canon (san e)) = none
             ∨ ∃ u, findUser db (san e) (canon (san e)) = some u ∧ cp u p = false) :
    auth_login san canon cp mac secret fc db
        (some { email := some e, password := some p, device := some d })
      = (.err "Email or password incorrect" 400, db) := by
  rcases hfail with hnone | ⟨u, hu, hcp⟩
  · simp [auth_login, truthy, he, hp, hd, hnone]
  · simp [auth_login, truthy, he, hp, hd, hu, hcp]

/-- C10 witness: a login against the empty user table gets the uniform
failure response. -/
theorem auth_login_uniform_failure_witness :
    auth_login (fun s => s) (fun s => s) (fun _ _ => true) (fun s p => s ++ p)
        "sec" "fresh" dbEmpty
        (some { email := some "x@y", password := some "pw", device := some "dev" })
      = (.err "Email or password incorrect" 400, dbEmpty) :=
  auth_login_uniform_failure (fun s => s) (fun s => s) (fun _ _ => true)
    (fun s p => s ++ p) "sec" "fresh" dbEmpty "x@y" "pw" "dev"
    (by decide) (by decide) (by decide) (Or.inl (by decide))

/-- Helper: when a key for `(uid, device)` is already stored,
`getOrCreateApiKey` returns it and leaves the state untouched. -/
theorem getOrCreate_of_found (db : DB) (uid : Nat) (d f : String) (k : ApiKey)
    (hk : db.api_keys.find? (fun x => x.user_id == uid && x.name == d) = some k) :
    getOrCreateApiKey db uid d f = (k, db) := by
  simp [getOrCreateApiKey, hk]

/-- Helper: when no key for `(uid, device)` is stored, `getOrCreateApiKey`
appends a freshly created one. -/
theorem getOrCreate_of_absent (db : DB) (uid : Nat) (d f : String)
    (hk : db.api_keys.find? (fun x => x.user_id == uid && x.name == d) = none) :
    getOrCreateApiKey db uid d f
      = (ApiKey.create uid d f,
         { db with api_keys := db.api_keys ++ [ApiKey.create uid d f] }) := by
  simp [getOrCreateApiKey, hk]

/-- Helper: `getOrCreateApiKey` never touches users or activations, and
afterwards the lookup for `(uid, device)` finds exactly the returned key. -/
theorem getOrCreate_stable (db : DB) (uid : Nat) (d f : String) :
    ((getOrCreateApiKey db uid d f).2).users = db.users
    ∧ ((getOrCreateApiKey db uid d f).2).activations = db.activations
    ∧ ((getOrCreateApiKey db uid d f).2).api_keys.find?
        (fun x => x.user_id == uid && x.name == d) = some (getOrCreateApiKey db uid d f).1 := by
  cases hk : db.api_keys.find? (fun x => x.user_id == uid && x.name == d) with
  | some k => rw [getOrCreate_of_found db uid d f k hk]; exact ⟨rfl, rfl, hk⟩
  | none =>
    rw [getOrCreate_of_absent db uid d f hk]
    refine ⟨rfl, rfl, ?_⟩
    rw [List.find?_append, hk]
    simp [ApiKey.create]

/-- Helper: `findUser` only reads the user table. -/
theorem findUser_congr (db1 db2 : DB) (e c : String) (h : db1.users = db2.users) :
    findUser db1 e c = findUser db2 e c := by
  unfold findUser
  rw [h]

/-- C8: for an MFA-disabled, activated, enabled user, a successful login
resolves the per-device key get-or-create; a second login with the same
(email, password, device) — even with a different candidate fresh code —
returns the very same api-key code and leaves the database (key codes,
counters) completely unchanged; and once the key exists, the shared
get-or-create step (also used by the MFA-completion path in `auth_mfa`)
returns it unchanged for any fresh code. -/
theorem auth_login_idempotent_api_key (san canon : String → String)
    (cp : User → String → Bool) (mac : String → String → String)
    (secret fc1 fc2 : String) (db : DB) (e p d : String) (u : User)
    (he : e ≠ "") (hp : p ≠ "") (hd : d ≠ "")
    (hu : findUser db (san e) (canon (san e)) = some u)
    (hcp : cp u p = true)
    (hdis : u.disabled = false) (hdel : u.delete_on = none)
    (hact : u.activated = true) (hfido : u.fido_enabled = false)
    (hotp : u.enable_otp = false) :
    auth_login san canon cp mac secret fc1 db
        (some { email := some e, password := some p, device := some d })
      = (.ok { name := u.name.getD "", email := u.email, mfa_enabled := false,
               mfa_key := none,
               api_key := some ((getOrCreateApiKey db u.id d fc1).1).code } 200,
         (getOrCreateApiKey db u.id d fc1).2)
    ∧ auth_login san canon cp mac secret fc2 ((getOrCreateApiKey db u.id d fc1).2)
        (some { email := some e, password := some p, device := some d })
      = (.ok { name := u.name.getD "", email := u.email, mfa_enabled := false,
               mfa_key := none,
               api_key := some ((getOrCreateApiKey db u.id d fc1).1).code } 200,
         (getOrCreateApiKey db u.id d fc1).2)
    ∧ (∀ f, getOrCreateApiKey ((getOrCreateApiKey db u.id d fc1).2) u.id d f
        = getOrCreateApiKey db u.id d fc1) := by
  obtain ⟨k, db1, hk⟩ : ∃ k db1, getOrCreateApiKey db u.id d fc1 = (k, db1) := ⟨_, _, rfl⟩
  rw [hk]
  have hstab := getOrCreate_stable db u.id d fc1
  rw [hk] at hstab
  obtain ⟨husers, -, hfound⟩ := hstab
  have hu1 : findUser db1 (san e) (canon (san e)) = some u := by
    rw [findUser_congr db1 db (san e) (canon (san e)) husers]; exact hu
  have hgoc : ∀ f, getOrCreateApiKey db1 u.id d f = (k, db1) := fun f =>
    getOrCreate_of_found db1 u.id d f k hfound
  refine ⟨?_, ?_, hgoc⟩
  · simp [auth_login, truthy, he, hp, hd, hu, hcp, hdis, hdel, hact, hfido, hotp,
      auth_payload, hk]
  · simp [auth_login, truthy, he, hp, hd, hu1, hcp, hdis, hdel, hact, hfido, hotp,
      auth_payload, hgoc fc2]

/-- C8 witness: two logins for the same healthy user and device starting from
the empty key table return the same code "fresh1" (the second call's fresh
candidate "fresh2" is never used), and the database settles after the first
call. -/
theorem auth_login_idempotent_api_key_witness :
    auth_login (fun s => s) (fun s => s) (fun _ _ => true) (fun s p => s ++ p)
        "sec" "fresh1" dbUserOk
        (some { email := some "a@b", password := some "pw", device := some "dev" })
      = (.ok { name := "", email := "a@b", mfa_enabled := false,
               mfa_key := none, api_key := some "fresh1" } 200, dbLogin1)
    ∧ auth_login (fun s => s) (fun s => s) (fun _ _ => true) (fun s p => s ++ p)
        "sec" "fresh2" dbLogin1
        (some { email := some "a@b", password := some "pw", device := some "dev" })
      = (.ok { name := "", email := "a@b", mfa_enabled := false,
               mfa_key := none, api_key := some "fresh1" } 200, dbLogin1)
    ∧ getOrCreateApiKey dbLogin1 1 "dev" "fresh3"
      = (ApiKey.create 1 "dev" "fresh1", dbLogin1) := by
  have h := auth_login_idempotent_api_key (fun s => s) (fun s => s) (fun _ _ => true)
    (fun s p => s ++ p) "sec" "fresh1" "fresh2" dbUserOk "a@b" "pw" "dev" userOk
    (by decide) (by decide) (by decide) (by decide) rfl rfl rfl rfl rfl rfl
  obtain ⟨h1, h2, h3⟩ := h
  have hg : getOrCreateApiKey dbUserOk userOk.id "dev" "fresh1"
      = (ApiKey.create 1 "dev" "fresh1", dbLogin1) := by decide
  rw [hg] at h1 h2 h3
  exact ⟨h1, h2, h3 "fresh3"⟩

/-- C5 counterexample: with a key for `(user 1, "dev")` already stored,
`POST /api_key` for device "dev" creates and returns a second, different key
instead of returning the existing one — afterwards two keys exist for the
pair, violating the claimed invariant. -/
theorem create_api_key_duplicates_cex :
    create_api_key "new" dbWithKey userOk (some (some "dev"))
      = (.ok "new" 201,
         { users := [userOk], api_keys := [keyDev, ApiKey.create 1 "dev" "new"],
           activations := [] })
    ∧ ((create_api_key "new" dbWithKey userOk (some (some "dev"))).2.api_keys.countP
        (fun k => k.user_id == 1 && k.name == "dev")) = 2
    ∧ ¬ ((ApiKey.create 1 "dev" "new").code = keyDev.code) := by
  refine ⟨by decide, by decide, by decide⟩

/-- C5 amended: the login-flow issuance step (`getOrCreateApiKey`, shared by
`auth_payload` and `auth_mfa`) returns the existing key for `(user, device)`
untouched when present, creates exactly one otherwise, and hence preserves
the at-most-one-key-per-(user, device) invariant; the explicit
`POST /api_key` endpoint, by contrast, always creates a fresh key and is
exempt from the invariant. -/
theorem getOrCreateApiKey_spec (db : DB) (uid : Nat) (d f : String) :
    (∀ k, db.api_keys.find? (fun x => x.user_id == uid && x.name == d) = some k →
      getOrCreateApiKey db uid d f = (k, db))
    ∧ (db.api_keys.find? (fun x => x.user_id == uid && x.name == d) = none →
      getOrCreateApiKey db uid d f
        = (ApiKey.create uid d f,
           { db with api_keys := db.api_keys ++ [ApiKey.create uid d f] }))
    ∧ (db.api_keys.countP (fun x => x.user_id == uid && x.name == d) ≤ 1 →
      ((getOrCreateApiKey db uid d f).2).api_keys.countP
          (fun x => x.user_id == uid && x.name == d) ≤ 1) := by
  refine ⟨fun k hk => getOrCreate_of_found db uid d f k hk,
          fun hk => getOrCreate_of_absent db uid d f hk, ?_⟩
  intro hle
  cases hk : db.api_keys.find? (fun x => x.user_id == uid && x.name == d) with
  | some k => rw [getOrCreate_of_found db uid d f k hk]; exact hle
  | none =>
    rw [getOrCreate_of_absent db uid d f hk]
    have h0 : db.api_keys.countP (fun x => x.user_id == uid && x.name == d) = 0 :=
      List.countP_eq_zero.mpr (List.find?_eq_none.mp hk)
    simp [List.countP_append, h0, ApiKey.create]

/-- C5 witness: on the database that already holds `keyDev`, get-or-create
returns exactly that key and changes nothing. -/
theorem getOrCreateApiKey_spec_witness :
    getOrCreateApiKey dbWithKey 1 "dev" "fresh" = (keyDev, dbWithKey) :=
  (getOrCreateApiKey_spec dbWithKey 1 "dev" "fresh").1 keyDev (by decide)

/-- C7 counterexample: a correctly signed token for an existing user whose
MFA is disabled is rejected, but with the distinct
"This endpoint should only be used by users who enable MFA" error, not the
`InvalidToken` outcome ("Invalid mfa_key") the claim groups it under. -/
theorem auth_mfa_disabled_user_cex :
    auth_mfa macFix "sec" totpFix 0 "fc" dbUserOk
        (some { mfa_token := some "code", mfa_key := some { payload := "1", sig := "sec|1" },
                device := some "dev" })
      = (.err "This endpoint should only be used by users who enable MFA" 400, dbUserOk, false)
    ∧ ¬ ("This endpoint should only be used by users who enable MFA" = "Invalid mfa_key") := by
  refine ⟨by decide, by decide⟩

/-- C7 amended: `auth_mfa` fails closed with `("Invalid mfa_key", 400)` on a
bad signature, on a non-integer payload, and on a token referencing no user;
for a referenced user whose MFA is disabled it fails closed with the distinct
"This endpoint should only be used by users who enable MFA" 400 error; for an
MFA user whose TOTP code fails within the symmetric ±2-step window it fails
with `("Wrong TOTP Token", 400)` and triggers the suspicious-login
notification; and the TOTP acceptance window means exactly: some step offset
in [-2, 2] generates the submitted code. -/
theorem auth_mfa_error_spec (mac : String → String → String) (secret : String)
    (totpAt : String → Int → String) (step : Int) (fc : String) (db : DB)
    (tok : String) (tk : SignedToken) (dev : String)
    (htok : tok ≠ "") (hdev : dev ≠ "") :
    (Signer.unsign mac secret tk = none →
      auth_mfa mac secret totpAt step fc db
          (some { mfa_token := some tok, mfa_key := some tk, device := some dev })
        = (.err "Invalid mfa_key" 400, db, false))
    ∧ ((Signer.unsign mac secret tk).bind parseInt? = none →
      auth_mfa mac secret totpAt step fc db
          (some { mfa_token := some tok, mfa_key := some tk, device := some dev })
        = (.err "Invalid mfa_key" 400, db, false))
    ∧ (∀ i, (Signer.unsign mac secret tk).bind parseInt? = some i →
      db.users.find? (fun u => ((u.id : Int) == i)) = none →
      auth_mfa mac secret totpAt step fc db
          (some { mfa_token := some tok, mfa_key := some tk, device := some dev })
        = (.err "Invalid mfa_key" 400, db, false))
    ∧ (∀ i u, (Signer.unsign mac secret tk).bind parseInt? = some i →
      db.users.find? (fun u => ((u.id : Int) == i)) = some u →
      u.enable_otp = false →
      auth_mfa mac secret totpAt step fc db
          (some { mfa_token := some tok, mfa_key := some tk, device := some dev })
        = (.err "This endpoint should only be used by users who enable MFA" 400, db, false))
    ∧ (∀ i u, (Signer.unsign mac secret tk).bind parseInt? = some i →
      db.users.find? (fun u => ((u.id : Int) == i)) = some u →
      u.enable_otp = true →
      totp_verify totpAt u.otp_secret tok step 2 = false →
      auth_mfa mac secret totpAt step fc db
          (some { mfa_token := some tok, mfa_key := some tk, device := some dev })
        = (.err "Wrong TOTP Token" 400, db, true))
    ∧ (∀ sec t, totp_verify totpAt sec t step 2 = true ↔
        ∃ dlt : Int, -2 ≤ dlt ∧ dlt ≤ 2 ∧ totpAt sec (step + dlt) = t) := by
  refine ⟨?_, ?_, ?_, ?_, ?_, ?_⟩
  · intro hns
    simp [auth_mfa, truthy, htok, hdev, hns]
  · intro hni
    simp [auth_mfa, truthy, htok, hdev, hni]
  · intro i hi hnu
    simp [auth_mfa, truthy, htok, hdev, hi, hnu]
  · intro i u hi hu hotp
    simp [auth_mfa, truthy, htok, hdev, hi, hu, hotp]
  · intro i u hi hu hotp hverif
    simp [auth_mfa, truthy, htok, hdev, hi, hu, hotp, hverif]
  · intro sec t
    simp only [totp_verify, List.any_eq_true, List.mem_range, beq_iff_eq]
    constructor
    · rintro ⟨i, hi, hp⟩
      refine ⟨(i : Int) - 2, by omega, by omega, ?_⟩
      rw [show step + ((i : Int) - 2) = step - ((2 : Nat) : Int) + i by push_cast; ring]
      exact hp
    · rintro ⟨dlt, h1, h2, hp⟩
      refine ⟨(dlt + 2).toNat, by omega, ?_⟩
      rw [show step - ((2 : Nat) : Int) + (((dlt + 2).toNat : Nat) : Int) = step + dlt by
        rw [Int.toNat_of_nonneg (by omega)]; push_cast; ring]
      exact hp

/-- C7 witness: a token with a wrong signature is rejected with
("Invalid mfa_key", 400) and no notification. -/
theorem auth_mfa_error_spec_witness :
    auth_mfa macFix "sec" totpFix 0 "fc" dbMfa
        (some { mfa_token := some "code", mfa_key := some { payload := "1", sig := "BAD" },
                device := some "dev" })
      = (.err "Invalid mfa_key" 400, dbMfa, false) :=
  (auth_mfa_error_spec macFix "sec" totpFix 0 "fc" dbMfa "code"
    { payload := "1", sig := "BAD" } "dev" (by decide) (by decide)).1 (by decide)

end AppApi
